import Mathlib

/-!
Shallow embedding of `drivers/pinctrl/nxp/pinctrl-scmi.c` (SCMI pin-control
driver).  Machine integers are modelled as `Nat` with explicit reductions
modulo `2 ^ 32` where the C code can overflow; fallible C functions (which
return `0` or a negative errno) are modelled as `Except Int _` where the
error value is the returned negative errno.  The synchronous transport
primitive `scmi_send_and_process_msg` and the status translation
`scmi_to_linux_errno` are external collaborators: their combined outcome is
passed in as an explicit `Except Int _` argument (`.ok` = transport
succeeded and the remote status mapped to zero).
-/

/-- Linux errno `EINVAL`; the driver returns `-EINVAL`. -/
def EINVAL : Int := 22

/-- Linux errno `ENOMEM`; the driver returns `-ENOMEM`. -/
def ENOMEM : Int := 12

/-- `U16_MAX` from the kernel headers. -/
def U16_MAX : Nat := 65535

/-- `#define SCMI_MAX_BUFFER_SIZE 92` — 128 (channel size) - 28 (SMT header)
- 8 (extra space). -/
def SCMI_MAX_BUFFER_SIZE : Nat := 92

/-- `BIT_32(n)`: `(u32)1 << n`, reduced modulo `2 ^ 32`. -/
def BIT_32 (n : Nat) : Nat := (1 <<< n) % 2 ^ 32

/-- `#define PACK_CFG(p, a) (((p) & 0xFF) | ((a) << 8))`, stored in a `u32`. -/
def PACK_CFG (p a : Nat) : Nat := ((p &&& 0xFF) ||| (a <<< 8)) % 2 ^ 32

/-- `#define UNPACK_PARAM(packed) ((packed) & 0xFF)` -/
def UNPACK_PARAM (packed : Nat) : Nat := packed &&& 0xFF

/-- `#define UNPACK_ARG(packed) ((packed) >> 8)` -/
def UNPACK_ARG (packed : Nat) : Nat := packed >>> 8

/-! The dense wire-parameter enumeration `enum converted_pin_param`. -/

def CONV_PIN_CONFIG_BIAS_BUS_HOLD : Nat := 0
def CONV_PIN_CONFIG_BIAS_DISABLE : Nat := 1
def CONV_PIN_CONFIG_BIAS_HIGH_IMPEDANCE : Nat := 2
def CONV_PIN_CONFIG_BIAS_PULL_DOWN : Nat := 3
def CONV_PIN_CONFIG_BIAS_PULL_PIN_DEFAULT : Nat := 4
def CONV_PIN_CONFIG_BIAS_PULL_UP : Nat := 5
def CONV_PIN_CONFIG_DRIVE_OPEN_DRAIN : Nat := 6
def CONV_PIN_CONFIG_DRIVE_OPEN_SOURCE : Nat := 7
def CONV_PIN_CONFIG_DRIVE_PUSH_PULL : Nat := 8
def CONV_PIN_CONFIG_DRIVE_STRENGTH : Nat := 9
def CONV_PIN_CONFIG_DRIVE_STRENGTH_UA : Nat := 10
def CONV_PIN_CONFIG_INPUT_DEBOUNCE : Nat := 11
def CONV_PIN_CONFIG_INPUT_ENABLE : Nat := 12
def CONV_PIN_CONFIG_INPUT_SCHMITT : Nat := 13
def CONV_PIN_CONFIG_INPUT_SCHMITT_ENABLE : Nat := 14
def CONV_PIN_CONFIG_MODE_LOW_POWER : Nat := 15
def CONV_PIN_CONFIG_MODE_PWM : Nat := 16
def CONV_PIN_CONFIG_OUTPUT : Nat := 17
def CONV_PIN_CONFIG_OUTPUT_ENABLE : Nat := 18
def CONV_PIN_CONFIG_PERSIST_STATE : Nat := 19
def CONV_PIN_CONFIG_POWER_SOURCE : Nat := 20
def CONV_PIN_CONFIG_SKEW_DELAY : Nat := 21
def CONV_PIN_CONFIG_SLEEP_HARDWARE_STATE : Nat := 22
def CONV_PIN_CONFIG_SLEW_RATE : Nat := 23

/-- `CONV_PIN_CONFIG_NUM_CONFIGS`: number of wire parameters (24). -/
def CONV_PIN_CONFIG_NUM_CONFIGS : Nat := 24

/-- `CONV_PIN_CONFIG_ERROR` -/
def CONV_PIN_CONFIG_ERROR : Nat := 25

/-- Static classification bitmask `scmi_pinctrl_multi_bit_cfgs`. -/
def scmi_pinctrl_multi_bit_cfgs : Nat :=
  BIT_32 CONV_PIN_CONFIG_SLEW_RATE |||
  BIT_32 CONV_PIN_CONFIG_SKEW_DELAY |||
  BIT_32 CONV_PIN_CONFIG_POWER_SOURCE |||
  BIT_32 CONV_PIN_CONFIG_MODE_LOW_POWER |||
  BIT_32 CONV_PIN_CONFIG_INPUT_SCHMITT |||
  BIT_32 CONV_PIN_CONFIG_INPUT_DEBOUNCE |||
  BIT_32 CONV_PIN_CONFIG_DRIVE_STRENGTH_UA |||
  BIT_32 CONV_PIN_CONFIG_DRIVE_STRENGTH

/-- `scmi_pinctrl_is_multi_bit_value(p)`: `!!(BIT_32(p) & scmi_pinctrl_multi_bit_cfgs)`. -/
def scmi_pinctrl_is_multi_bit_value (p : Nat) : Bool :=
  (BIT_32 p &&& scmi_pinctrl_multi_bit_cfgs) != 0

/-- `hweight32`: population count of a 32-bit word. -/
def hweight32 (n : Nat) : Nat :=
  ((List.range 32).filter (fun i => n.testBit i)).length

/-- `struct scmi_pinctrl_pin_cfg`: a growable Config Set.  The `configs`
array is modelled as the list of its first `num_configs` (live) entries. -/
structure scmi_pinctrl_pin_cfg where
  num_configs : Nat
  allocated : Nat
  configs : List Nat
deriving DecidableEq, Repr

/-- Well-formedness tying the `num_configs` counter to the live entries,
maintained by every writer in the driver. -/
def cfg_wf (cfg : scmi_pinctrl_pin_cfg) : Prop :=
  cfg.num_configs = cfg.configs.length

instance (cfg : scmi_pinctrl_pin_cfg) : Decidable (cfg_wf cfg) := by
  unfold cfg_wf; infer_instance

/-- `scmi_pinctrl_add_config(config, cfg)`.  The `realloc` growth is modelled
as always succeeding (allocation failure, `-ENOMEM`, is an environment
failure outside the scope of the claims).  The `(u8)` store of the grown
capacity is kept as an explicit `% 256`. -/
def scmi_pinctrl_add_config (config : Nat) (cfg : scmi_pinctrl_pin_cfg) :
    Except Int scmi_pinctrl_pin_cfg :=
  if cfg.num_configs > CONV_PIN_CONFIG_NUM_CONFIGS then
    .error (-EINVAL)
  else
    let allocated :=
      if cfg.allocated ≤ cfg.num_configs then (2 * cfg.num_configs + 1) % 256
      else cfg.allocated
    .ok { num_configs := cfg.num_configs + 1
          allocated := allocated
          configs := cfg.configs ++ [config] }

/-- `struct scmi_pinctrl_pinconf_resp` payload of a Get Config response.
The leading `s32 status` field is not modelled here: the transport oracle's
`Except` already distinguishes a successfully-translated zero status from
transport/protocol failure. -/
structure scmi_pinctrl_pinconf_resp where
  mask : Nat
  boolean_values : Nat
  multi_bit_values : List Nat
deriving DecidableEq, Repr

/-- One iteration of the decode loop body of `scmi_pinctrl_push_back_configs`
at bit position `bit`, with `cfg_idx` multi-bit slots already consumed.
Returns the new `cfg_idx` and the grown Config Set. -/
def scmi_pinctrl_push_back_step (r : scmi_pinctrl_pinconf_resp)
    (bit cfg_idx : Nat) (cfg : scmi_pinctrl_pin_cfg) :
    Except Int (Nat × scmi_pinctrl_pin_cfg) :=
  if bit ≥ CONV_PIN_CONFIG_NUM_CONFIGS then
    .error (-EINVAL)
  else if scmi_pinctrl_is_multi_bit_value bit then
    if cfg_idx ≥ hweight32 scmi_pinctrl_multi_bit_cfgs then
      .error (-EINVAL)
    else
      (scmi_pinctrl_add_config
        (PACK_CFG bit (r.multi_bit_values.getD cfg_idx 0)) cfg).map
        (fun cfg' => (cfg_idx + 1, cfg'))
  else
    (scmi_pinctrl_add_config
      (PACK_CFG bit (r.boolean_values &&& BIT_32 bit)) cfg).map
      (fun cfg' => (cfg_idx, cfg'))

/-- The `do { ... } while (bit-- != 0)` loop of
`scmi_pinctrl_push_back_configs`, walking `bit` down to zero. -/
def scmi_pinctrl_push_back_loop (r : scmi_pinctrl_pinconf_resp) :
    Nat → Nat → scmi_pinctrl_pin_cfg → Except Int scmi_pinctrl_pin_cfg
  | 0, cfg_idx, cfg =>
    (scmi_pinctrl_push_back_step r 0 cfg_idx cfg).map (fun p => p.2)
  | bit + 1, cfg_idx, cfg =>
    match scmi_pinctrl_push_back_step r (bit + 1) cfg_idx cfg with
    | .error e => .error e
    | .ok (cfg_idx', cfg') => scmi_pinctrl_push_back_loop r bit cfg_idx' cfg'

/-- `scmi_pinctrl_push_back_configs(buffer, cfg)`: the decode of a Get Config
response body.  The C code starts at `bit = sizeof(r->mask) * BITS_PER_BYTE - 1
= 31` with `cfg_idx = 0`. -/
def scmi_pinctrl_push_back_configs (r : scmi_pinctrl_pinconf_resp)
    (cfg : scmi_pinctrl_pin_cfg) : Except Int scmi_pinctrl_pin_cfg :=
  scmi_pinctrl_push_back_loop r 31 0 cfg

/-- The comparison order imposed by `scmi_pinctrl_compare_cfgs` (which
returns `UNPACK_PARAM(*b) - UNPACK_PARAM(*a)`): entry `a` sorts no later
than entry `b` iff `b`'s wire parameter is ≤ `a`'s, i.e. descending by
parameter id. -/
def scmi_pinctrl_cfg_order (a b : Nat) : Prop :=
  UNPACK_PARAM b ≤ UNPACK_PARAM a

instance : DecidableRel scmi_pinctrl_cfg_order := fun a b =>
  inferInstanceAs (Decidable (UNPACK_PARAM b ≤ UNPACK_PARAM a))

instance : IsTotal Nat scmi_pinctrl_cfg_order :=
  ⟨fun a b => Nat.le_total (UNPACK_PARAM b) (UNPACK_PARAM a)⟩

instance : IsTrans Nat scmi_pinctrl_cfg_order :=
  ⟨fun _ _ _ hab hbc => Nat.le_trans hbc hab⟩

/-- The `qsort(cfg->configs, cfg->num_configs, ..., scmi_pinctrl_compare_cfgs)`
call: `qsort` is an external sort whose tie order is unspecified, so it is
modelled by insertion sort under the comparator's order. -/
def scmi_pinctrl_sort_cfgs (l : List Nat) : List Nat :=
  List.insertionSort scmi_pinctrl_cfg_order l

/-- The on-wire request built by `scmi_pinctrl_set_configs`: the struct
`{ u16 pin; u32 mask; u32 boolean_values; u32 multi_bit_values[]; }`.
With C alignment its fixed header occupies 12 bytes (`pin` padded to 4,
then the two `u32` words) and each multi-bit slot 4 bytes. -/
structure scmi_pinctrl_set_ovr_request where
  pin : Nat
  mask : Nat
  boolean_values : Nat
  multi_bit_values : List Nat
deriving DecidableEq, Repr

/-- `sizeof(*r)` in `scmi_pinctrl_set_configs`: the 12-byte fixed header. -/
def scmi_pinctrl_set_ovr_header_size : Nat := 12

/-- `max_mb_elems = (sizeof(buffer) - sizeof(*r)) / sizeof(r->multi_bit_values[0])`
= (92 - 12) / 4 = 20. -/
def max_mb_elems : Nat :=
  (SCMI_MAX_BUFFER_SIZE - scmi_pinctrl_set_ovr_header_size) / 4

/-- The encode loop of `scmi_pinctrl_set_configs` over the (sorted) entries,
threading `mask`, `boolean_values`, the multi-bit slot index and the slots
written so far. -/
def scmi_pinctrl_set_configs_loop :
    List Nat → Nat → Nat → Nat → List Nat → Except Int (Nat × Nat × List Nat)
  | [], mask, bools, _, mbs => .ok (mask, bools, mbs)
  | c :: rest, mask, bools, index, mbs =>
    let param := UNPACK_PARAM c
    let arg := UNPACK_ARG c
    let mask := mask ||| BIT_32 param
    if param > CONV_PIN_CONFIG_NUM_CONFIGS then
      .error (-EINVAL)
    else if index ≥ max_mb_elems then
      .error (-EINVAL)
    else if scmi_pinctrl_is_multi_bit_value param then
      scmi_pinctrl_set_configs_loop rest mask bools (index + 1) (mbs ++ [arg])
    else
      scmi_pinctrl_set_configs_loop rest mask
        (bools ||| (if arg ≠ 0 then BIT_32 param else 0)) index mbs

/-- `scmi_pinctrl_set_configs(scmi_dev, pin, cfg)` up to the transport call:
returns the encoded request (or the negative errno returned before sending)
together with the caller-visible final state of `*cfg` (the C code sorts
`cfg->configs` in place once the pin width check has passed). -/
def scmi_pinctrl_set_configs (pin : Nat) (cfg : scmi_pinctrl_pin_cfg) :
    Except Int scmi_pinctrl_set_ovr_request × scmi_pinctrl_pin_cfg :=
  if pin > U16_MAX then
    (.error (-EINVAL), cfg)
  else
    let cfg' := { cfg with configs := scmi_pinctrl_sort_cfgs cfg.configs }
    (match scmi_pinctrl_set_configs_loop (cfg'.configs.take cfg'.num_configs)
        0 0 0 [] with
     | .error e => .error e
     | .ok (mask, bools, mbs) =>
       .ok { pin := pin, mask := mask, boolean_values := bools,
             multi_bit_values := mbs },
     cfg')

/-- The on-wire request built by `scmi_pinctrl_append_conf`: the struct
`{ u16 pin; u32 mask; u32 boolean_values; u32 multi_bit_values; }`
(16 bytes with alignment).  `in_msg_sz` records the wire payload length
actually sent: 16, or 12 when the trailing multi-bit word is omitted. -/
structure scmi_pinctrl_set_app_request where
  pin : Nat
  mask : Nat
  boolean_values : Nat
  multi_bit_values : Nat
  in_msg_sz : Nat
deriving DecidableEq, Repr

/-- `scmi_pinctrl_append_conf(scmi_dev, pin, param, arg)` up to the transport
call: the incremental ("apply") Set Config encode. -/
def scmi_pinctrl_append_conf (pin param arg : Nat) :
    Except Int scmi_pinctrl_set_app_request :=
  if pin > U16_MAX ∨ param ≥ CONV_PIN_CONFIG_NUM_CONFIGS then
    .error (-EINVAL)
  else
    let mask := BIT_32 param
    if mask ≥ CONV_PIN_CONFIG_NUM_CONFIGS then
      .error (-EINVAL)
    else if ¬ scmi_pinctrl_is_multi_bit_value param then
      .ok { pin := pin, mask := mask,
            boolean_values := (arg <<< param) % 2 ^ 32,
            multi_bit_values := 0, in_msg_sz := 12 }
    else
      .ok { pin := pin, mask := mask, boolean_values := 0,
            multi_bit_values := arg, in_msg_sz := 16 }

/-- `struct scmi_pinctrl_saved_pin`: one entry of the Saved-Pin Registry. -/
structure scmi_pinctrl_saved_pin where
  pin : Nat
  func : Nat
  cfg : scmi_pinctrl_pin_cfg
deriving DecidableEq, Repr

/-- Transport-call outcomes seen by `scmi_pinctrl_gpio_request_enable`:
the results of its Get Mux, Get Config and Set Mux sub-operations. -/
structure scmi_pinctrl_claim_oracle where
  get_mux : Except Int Nat
  get_config : Except Int scmi_pinctrl_pin_cfg
  set_mux : Except Int Unit

/-- `scmi_pinctrl_gpio_request_enable(dev, pin_selector)`: returns the
function result, the new registry (the driver's `priv->gpio_configs` list,
to which `list_add` prepends), and whether the error path freed the read
Config Set's storage (`free(cfg.configs)` on the `err:` label). -/
def scmi_pinctrl_gpio_request_enable (pin : Nat)
    (o : scmi_pinctrl_claim_oracle) (reg : List scmi_pinctrl_saved_pin) :
    Except Int Unit × List scmi_pinctrl_saved_pin × Bool :=
  if pin > U16_MAX then
    (.error (-EINVAL), reg, false)
  else
    match o.get_mux with
    | .error e => (.error e, reg, true)
    | .ok function =>
      match o.get_config with
      | .error e => (.error e, reg, true)
      | .ok cfg =>
        match o.set_mux with
        | .error e => (.error e, reg, true)
        | .ok _ =>
          (.ok (), { pin := pin, func := function, cfg := cfg } :: reg, false)

/-- `scmi_pinctrl_gpio_disable_free(dev, pin)`: walks the registry list;
at the first entry whose pin matches, restores the mux (`set_mux_result`)
then the saved configuration (`set_configs_result`); on failure it `break`s
out with the error, and only on success does `list_del` remove the entry.
Returns the C function's `int` result and the final registry. -/
def scmi_pinctrl_gpio_disable_free (pin : Nat)
    (set_mux_result set_configs_result : Except Int Unit) :
    List scmi_pinctrl_saved_pin → Int × List scmi_pinctrl_saved_pin
  | [] => (-EINVAL, [])
  | save :: rest =>
    if save.pin = pin then
      match set_mux_result with
      | .error e => (e, save :: rest)
      | .ok _ =>
        match set_configs_result with
        | .error e => (e, save :: rest)
        | .ok _ => (0, rest)
    else
      ((scmi_pinctrl_gpio_disable_free pin set_mux_result set_configs_result
          rest).1,
       save ::
         (scmi_pinctrl_gpio_disable_free pin set_mux_result set_configs_result
           rest).2)

/-- `scmi_pinctrl_get_config(scmi_dev, pin, cfg)`: given the transport
outcome for the Get Config message (`.ok` = sent and remote status zero),
initialises an empty Config Set and decodes the response body via
`scmi_pinctrl_push_back_configs`. -/
def scmi_pinctrl_get_config (resp : Except Int scmi_pinctrl_pinconf_resp) :
    Except Int scmi_pinctrl_pin_cfg :=
  match resp with
  | .error e => .error e
  | .ok r =>
    scmi_pinctrl_push_back_configs r
      { num_configs := 0, allocated := 0, configs := [] }

/-- The `GPIOF_*` values `scmi_pinctrl_get_gpio_mux` reports upward. -/
inductive gpio_func_t where
  | GPIOF_INPUT
  | GPIOF_OUTPUT
  | GPIOF_UNKNOWN
  | GPIOF_FUNC
deriving DecidableEq, Repr

/-- The direction scan loop of `scmi_pinctrl_get_gpio_mux` over the decoded
entries, producing the `(output, input)` flags. -/
def scmi_pinctrl_direction_scan (configs : List Nat) : Bool × Bool :=
  configs.foldl
    (fun acc c =>
      let param := UNPACK_PARAM c
      let arg := UNPACK_ARG c
      if param = CONV_PIN_CONFIG_OUTPUT_ENABLE ∧ arg = 1 then
        (true, acc.2)
      else if param = CONV_PIN_CONFIG_INPUT_ENABLE ∧ arg = 1 then
        (acc.1, true)
      else acc)
    (false, false)

/-- `scmi_pinctrl_get_gpio_mux(dev, banknum, index)`: `mux_resp` is the Get
Mux outcome and `conf_resp` the Get Config transport outcome.  The result is
a `GPIOF_*` state or the negative errno the C function returns. -/
def scmi_pinctrl_get_gpio_mux (index : Int) (mux_resp : Except Int Nat)
    (conf_resp : Except Int scmi_pinctrl_pinconf_resp) :
    Except Int gpio_func_t :=
  if index > (U16_MAX : Int) ∨ index < 0 then
    .error (-EINVAL)
  else
    match mux_resp with
    | .error e => .error e
    | .ok function =>
      if function ≠ 0 then
        .ok .GPIOF_FUNC
      else
        match scmi_pinctrl_get_config conf_resp with
        | .error e => .error e
        | .ok cfg =>
          let scan := scmi_pinctrl_direction_scan (cfg.configs.take cfg.num_configs)
          if scan.1 then .ok .GPIOF_OUTPUT
          else if scan.2 then .ok .GPIOF_INPUT
          else .ok .GPIOF_UNKNOWN

/-! ## Helper lemmas -/

/-- Every failure of the bulk-encode loop carries errno `-EINVAL`. -/
theorem set_configs_loop_error_shape (l : List Nat) :
    ∀ mask bools index mbs,
      (∃ p, scmi_pinctrl_set_configs_loop l mask bools index mbs = .ok p) ∨
      scmi_pinctrl_set_configs_loop l mask bools index mbs =
        .error (-EINVAL) := by
  induction l with
  | nil => intro mask bools index mbs; exact .inl ⟨_, rfl⟩
  | cons c rest ih =>
    intro mask bools index mbs
    rw [scmi_pinctrl_set_configs_loop]
    split
    · exact .inr rfl
    · split
      · exact .inr rfl
      · split
        · exact ih _ _ _ _
        · exact ih _ _ _ _

/-- Number of multi-bit entries in a list of packed entries. -/
def count_multi_bit (l : List Nat) : Nat :=
  (l.filter (fun c => scmi_pinctrl_is_multi_bit_value (UNPACK_PARAM c))).length

/-- If the bulk-encode loop succeeds, the multi-bit slots it has written
account for every multi-bit entry and never pass `max_mb_elems`. -/
theorem set_configs_loop_ok_count (l : List Nat) :
    ∀ mask bools index mbs m b mb,
      index ≤ max_mb_elems → mbs.length = index →
      scmi_pinctrl_set_configs_loop l mask bools index mbs = .ok (m, b, mb) →
      mb.length = index + count_multi_bit l ∧
        index + count_multi_bit l ≤ max_mb_elems := by
  induction l with
  | nil =>
    intro mask bools index mbs m b mb hle hlen h
    rw [scmi_pinctrl_set_configs_loop] at h
    cases h
    simp [count_multi_bit, hlen, hle]
  | cons c rest ih =>
    intro mask bools index mbs m b mb hle hlen h
    rw [scmi_pinctrl_set_configs_loop] at h
    split at h
    · cases h
    · split at h
      · cases h
      · rename_i hidx
        have hidx' : index < max_mb_elems := Nat.lt_of_not_le (by
          intro hc; exact hidx (by simpa using hc))
        split at h
        · rename_i hmb
          have := ih _ _ _ _ _ _ _ hidx' (by simp [hlen]) h
          constructor
          · rw [this.1]
            simp [count_multi_bit, hmb]
            omega
          · have h2 := this.2
            simp [count_multi_bit, hmb] at h2 ⊢
            omega
        · rename_i hmb
          have := ih _ _ _ _ _ _ _ hle hlen h
          constructor
          · rw [this.1]
            simp [count_multi_bit, hmb]
          · have h2 := this.2
            simp [count_multi_bit, hmb] at h2 ⊢
            omega

/-- If some entry of the list carries a wire parameter id above the
enumeration's count, the bulk-encode loop fails with `-EINVAL`. -/
theorem set_configs_loop_bad_param (l : List Nat) :
    ∀ mask bools index mbs,
      (∃ c ∈ l, UNPACK_PARAM c > CONV_PIN_CONFIG_NUM_CONFIGS) →
      scmi_pinctrl_set_configs_loop l mask bools index mbs =
        .error (-EINVAL) := by
  induction l with
  | nil => intro _ _ _ _ h; obtain ⟨c, hc, _⟩ := h; cases hc
  | cons c rest ih =>
    intro mask bools index mbs h
    rw [scmi_pinctrl_set_configs_loop]
    split
    · rfl
    · rename_i hne
      obtain ⟨d, hd, hdgt⟩ := h
      rcases List.mem_cons.mp hd with rfl | hd'
      · exact absurd hdgt hne
      · split
        · rfl
        · split
          · exact ih _ _ _ _ ⟨d, hd', hdgt⟩
          · exact ih _ _ _ _ ⟨d, hd', hdgt⟩

/-! ## Claim theorems -/

/-- C1: the spec says a successful Get Config decode walks wire-parameter
ids from the highest bit of `appliedMask` down to zero, consuming multi-bit
slots / boolean bits and appending every decoded pair.  The code instead
starts its walk at bit 31 of the 32-bit mask *field* and rejects any bit
position at or above the 24-entry wire-parameter domain, so the decode
returns `-EINVAL` for every response whatsoever and never appends anything. -/
theorem C1_get_config_decode_always_fails
    (r : scmi_pinctrl_pinconf_resp) (cfg : scmi_pinctrl_pin_cfg) :
    scmi_pinctrl_push_back_configs r cfg = .error (-EINVAL) := rfl

/-- C2: the round-trip property fails on the code.  Bulk-encoding the
one-entry Config Set {(INPUT_ENABLE, 1)} succeeds and yields
mask = booleanValues = bit 12, but decoding that very response fails with
`-EINVAL` (the decode of C1 is unconditionally broken), so the set of pairs
is not reproduced. -/
theorem C2_roundtrip_fails :
    (scmi_pinctrl_set_configs 0
        ⟨1, 1, [PACK_CFG CONV_PIN_CONFIG_INPUT_ENABLE 1]⟩).1 =
      .ok { pin := 0, mask := BIT_32 CONV_PIN_CONFIG_INPUT_ENABLE,
            boolean_values := BIT_32 CONV_PIN_CONFIG_INPUT_ENABLE,
            multi_bit_values := [] } ∧
    scmi_pinctrl_push_back_configs
      ⟨BIT_32 CONV_PIN_CONFIG_INPUT_ENABLE,
       BIT_32 CONV_PIN_CONFIG_INPUT_ENABLE, []⟩
      ⟨0, 0, []⟩ = .error (-EINVAL) :=
  ⟨rfl, rfl⟩

/-- C3: the claim says the incremental Set Config accepts every wire
parameter id below the enumeration count (24).  The code compares the
one-bit *mask* `1 << id` — not the id — against the count, so every id ≥ 5
(here `CONV_PIN_CONFIG_BIAS_PULL_UP` = 5, with `1 << 5 = 32 ≥ 24`) is
rejected with `-EINVAL` despite being in-domain. -/
theorem C3_append_conf_rejects_in_domain_param :
    CONV_PIN_CONFIG_BIAS_PULL_UP < CONV_PIN_CONFIG_NUM_CONFIGS ∧
    scmi_pinctrl_append_conf 0 CONV_PIN_CONFIG_BIAS_PULL_UP 1 =
      .error (-EINVAL) :=
  ⟨by decide, rfl⟩

/-- C9: with mux function 0 and a retrieved config carrying only
output-enable = 1 the claim says `queryDirection` returns Output; the code
returns `-EINVAL`, because the Get Config decode (C1) fails on every
response.  The function ≠ 0 half of the claim does hold: it reports
`GPIOF_FUNC` without consulting the config. -/
theorem C9_query_direction_broken :
    scmi_pinctrl_get_gpio_mux 7 (.ok 0)
      (.ok ⟨BIT_32 CONV_PIN_CONFIG_OUTPUT_ENABLE,
            BIT_32 CONV_PIN_CONFIG_OUTPUT_ENABLE, []⟩) = .error (-EINVAL) ∧
    scmi_pinctrl_get_gpio_mux 7 (.ok 5)
      (.ok ⟨BIT_32 CONV_PIN_CONFIG_OUTPUT_ENABLE,
            BIT_32 CONV_PIN_CONFIG_OUTPUT_ENABLE, []⟩) = .ok .GPIOF_FUNC :=
  ⟨rfl, rfl⟩

/-- C5 counterexample: a Config Set whose entry count already equals the
number of distinct wire parameters (24) is *not* rejected: the append
succeeds and the set now holds 25 entries, more than there are distinct
wire parameters, refuting the claimed cap. -/
theorem C5_append_succeeds_at_claimed_cap :
    scmi_pinctrl_add_config 0
      ⟨CONV_PIN_CONFIG_NUM_CONFIGS, 24, List.range 24⟩ =
      .ok ⟨CONV_PIN_CONFIG_NUM_CONFIGS + 1, 49, List.range 24 ++ [0]⟩ :=
  rfl

/-- C5 (amended): the append guard is `num_configs > 24`, so the effective
cap is 25 = `CONV_PIN_CONFIG_NUM_CONFIGS + 1` entries — one more than the
number of distinct wire parameters.  On success the packed entry is
appended, the count grows by one (staying ≤ 25), and the backing storage
grows by doubling-plus-one exactly when it was full. -/
theorem C5_append_cap_off_by_one (config : Nat)
    (cfg cfg' : scmi_pinctrl_pin_cfg) :
    (scmi_pinctrl_add_config config cfg = .ok cfg' →
      cfg.num_configs ≤ CONV_PIN_CONFIG_NUM_CONFIGS ∧
      cfg'.num_configs = cfg.num_configs + 1 ∧
      cfg'.num_configs ≤ CONV_PIN_CONFIG_NUM_CONFIGS + 1 ∧
      cfg'.configs = cfg.configs ++ [config] ∧
      cfg'.allocated = (if cfg.allocated ≤ cfg.num_configs
                        then (2 * cfg.num_configs + 1) % 256
                        else cfg.allocated)) ∧
    (cfg.num_configs > CONV_PIN_CONFIG_NUM_CONFIGS →
      scmi_pinctrl_add_config config cfg = .error (-EINVAL)) := by
  constructor
  · intro h
    rw [scmi_pinctrl_add_config] at h
    split at h
    · cases h
    · rename_i hle
      cases h
      refine ⟨by omega, rfl, by simp [CONV_PIN_CONFIG_NUM_CONFIGS] at hle ⊢; omega,
        rfl, rfl⟩
  · intro h
    rw [scmi_pinctrl_add_config]
    split
    · rfl
    · omega

/-- C5 amended, witnessed at a concrete input: appending to an empty set
succeeds and yields one entry. -/
theorem C5_append_cap_off_by_one_witness :
    (⟨1, 1, [7]⟩ : scmi_pinctrl_pin_cfg).num_configs =
      (⟨0, 0, []⟩ : scmi_pinctrl_pin_cfg).num_configs + 1 :=
  ((C5_append_cap_off_by_one 7 ⟨0, 0, []⟩ ⟨1, 1, [7]⟩).1 rfl).2.1

/-- C6 counterexample: a packed entry carrying wire parameter id 24 — the
enumeration's count, so "at the dense enumeration's upper bound" — is *not*
rejected: the bulk encode succeeds (the guard is `param > 24`, not `≥`),
sets mask bit 24 and sends the message. -/
theorem C6_param_at_bound_accepted :
    (scmi_pinctrl_set_configs 0
        ⟨1, 1, [PACK_CFG CONV_PIN_CONFIG_NUM_CONFIGS 0]⟩).1 =
      .ok { pin := 0, mask := BIT_32 CONV_PIN_CONFIG_NUM_CONFIGS,
            boolean_values := 0, multi_bit_values := [] } :=
  rfl

/-- C6 (amended): in the bulk Set Config encode, a wire parameter id
*strictly above* the dense enumeration's count (id > 24) is rejected with
`-EINVAL` before any message is sent; the boundary id 24 itself is accepted
(and encoded as a boolean parameter). -/
theorem C6_bulk_rejects_param_above_bound (pin : Nat)
    (cfg : scmi_pinctrl_pin_cfg) (hwf : cfg_wf cfg)
    (hbad : ∃ c ∈ cfg.configs,
      UNPACK_PARAM c > CONV_PIN_CONFIG_NUM_CONFIGS) :
    (scmi_pinctrl_set_configs pin cfg).1 = .error (-EINVAL) := by
  rw [scmi_pinctrl_set_configs]
  split
  · rfl
  · obtain ⟨c, hc, hgt⟩ := hbad
    have hmem : c ∈ scmi_pinctrl_sort_cfgs cfg.configs := by
      unfold scmi_pinctrl_sort_cfgs
      exact (List.mem_insertionSort _).mpr hc
    have hlen : (scmi_pinctrl_sort_cfgs cfg.configs).length =
        cfg.configs.length := by
      unfold scmi_pinctrl_sort_cfgs
      exact List.length_insertionSort _ _
    have htake : (scmi_pinctrl_sort_cfgs cfg.configs).take cfg.num_configs =
        scmi_pinctrl_sort_cfgs cfg.configs := by
      apply List.take_of_length_le
      rw [hlen, hwf]
    simp only [htake]
    rw [set_configs_loop_bad_param _ _ _ _ _ ⟨c, hmem, hgt⟩]

/-- C6 amended, witnessed: a set holding the single entry with wire
parameter id 25 is rejected. -/
theorem C6_bulk_rejects_param_above_bound_witness :
    (scmi_pinctrl_set_configs 0 ⟨1, 1, [PACK_CFG CONV_PIN_CONFIG_ERROR 0]⟩).1 =
      .error (-EINVAL) :=
  C6_bulk_rejects_param_above_bound 0 ⟨1, 1, [PACK_CFG CONV_PIN_CONFIG_ERROR 0]⟩
    (by decide) ⟨PACK_CFG CONV_PIN_CONFIG_ERROR 0, by simp, by decide⟩

/-! ## Registry release helper lemmas -/

/-- If the mux restore fails, the release walk leaves the registry
unchanged. -/
theorem disable_free_mux_err (pin : Nat) (e : Int) (c : Except Int Unit) :
    ∀ reg, (scmi_pinctrl_gpio_disable_free pin (.error e) c reg).2 = reg := by
  intro reg
  induction reg with
  | nil => rfl
  | cons s rest ih =>
    rw [scmi_pinctrl_gpio_disable_free]
    split
    · rfl
    · simpa using ih

/-- If the mux restore succeeds and the config restore fails, the release
walk leaves the registry unchanged. -/
theorem disable_free_cfg_err (pin : Nat) (e : Int) :
    ∀ reg,
      (scmi_pinctrl_gpio_disable_free pin (.ok ()) (.error e) reg).2 = reg := by
  intro reg
  induction reg with
  | nil => rfl
  | cons s rest ih =>
    rw [scmi_pinctrl_gpio_disable_free]
    split
    · rfl
    · simpa using ih

/-- If both restores succeed, the release walk removes exactly the first
matching entry. -/
theorem disable_free_ok (pin : Nat) :
    ∀ reg,
      (scmi_pinctrl_gpio_disable_free pin (.ok ()) (.ok ()) reg).2 =
        reg.eraseP (fun s => s.pin == pin) := by
  intro reg
  induction reg with
  | nil => rfl
  | cons s rest ih =>
    rw [scmi_pinctrl_gpio_disable_free]
    split
    · rename_i h
      simp [List.eraseP_cons, h]
    · rename_i h
      simp [List.eraseP_cons, h, ih]

/-- If the mux restore fails and some entry matches, the caller sees the
restore's error. -/
theorem disable_free_mux_err_ret (pin : Nat) (e : Int) (c : Except Int Unit) :
    ∀ reg, (∃ s ∈ reg, s.pin = pin) →
      (scmi_pinctrl_gpio_disable_free pin (.error e) c reg).1 = e := by
  intro reg
  induction reg with
  | nil => intro ⟨s, hs, _⟩; cases hs
  | cons s rest ih =>
    intro ⟨t, ht, htp⟩
    rw [scmi_pinctrl_gpio_disable_free]
    split
    · rfl
    · rename_i h
      rcases List.mem_cons.mp ht with rfl | ht'
      · exact absurd htp h
      · simpa using ih ⟨t, ht', htp⟩

/-- If the config restore fails and some entry matches, the caller sees
the restore's error. -/
theorem disable_free_cfg_err_ret (pin : Nat) (e : Int) :
    ∀ reg, (∃ s ∈ reg, s.pin = pin) →
      (scmi_pinctrl_gpio_disable_free pin (.ok ()) (.error e) reg).1 = e := by
  intro reg
  induction reg with
  | nil => intro ⟨s, hs, _⟩; cases hs
  | cons s rest ih =>
    intro ⟨t, ht, htp⟩
    rw [scmi_pinctrl_gpio_disable_free]
    split
    · rfl
    · rename_i h
      rcases List.mem_cons.mp ht with rfl | ht'
      · exact absurd htp h
      · simpa using ih ⟨t, ht', htp⟩

/-- C4 counterexample: release of claimed pin 5 with a failing mux restore
(error -110): the caller sees -110, but the Saved Pin Entry is *not*
removed — and a subsequent release of the same pin finds the entry (and
here succeeds), refuting the claim that the removal already happened. -/
theorem C4_entry_not_removed_on_failed_restore :
    (scmi_pinctrl_gpio_disable_free 5 (.error (-110)) (.ok ())
        [⟨5, 3, ⟨0, 0, []⟩⟩]).1 = -110 ∧
    (scmi_pinctrl_gpio_disable_free 5 (.error (-110)) (.ok ())
        [⟨5, 3, ⟨0, 0, []⟩⟩]).2 = [⟨5, 3, ⟨0, 0, []⟩⟩] ∧
    (scmi_pinctrl_gpio_disable_free 5 (.ok ()) (.ok ())
        [⟨5, 3, ⟨0, 0, []⟩⟩]).1 = 0 :=
  ⟨rfl, rfl, rfl⟩

/-- C4 (amended): if a restore step (mux restore or bulk config restore)
fails during release of a claimed pin, the caller sees the error and the
Saved Pin Entry *remains* in the registry — removal happens only after both
restore steps succeed (in which case exactly the first matching entry is
removed), so a subsequent release of the same pin finds the entry again. -/
theorem C4_failed_restore_keeps_entry (pin : Nat) (e : Int)
    (m c : Except Int Unit) (reg : List scmi_pinctrl_saved_pin) :
    ((m = .error e ∨ (m = .ok () ∧ c = .error e)) →
      (scmi_pinctrl_gpio_disable_free pin m c reg).2 = reg ∧
      ((∃ s ∈ reg, s.pin = pin) →
        (scmi_pinctrl_gpio_disable_free pin m c reg).1 = e)) ∧
    (m = .ok () → c = .ok () →
      (scmi_pinctrl_gpio_disable_free pin m c reg).2 =
        reg.eraseP (fun s => s.pin == pin)) := by
  constructor
  · rintro (rfl | ⟨rfl, rfl⟩)
    · exact ⟨disable_free_mux_err pin e c reg,
        disable_free_mux_err_ret pin e c reg⟩
    · exact ⟨disable_free_cfg_err pin e reg,
        disable_free_cfg_err_ret pin e reg⟩
  · rintro rfl rfl
    exact disable_free_ok pin reg

/-- C4 amended, witnessed: failed config restore on claimed pin 7 leaves
the two-entry registry intact and reports the error. -/
theorem C4_failed_restore_keeps_entry_witness :
    (scmi_pinctrl_gpio_disable_free 7 (.ok ()) (.error (-5))
        [⟨9, 2, ⟨0, 0, []⟩⟩, ⟨7, 1, ⟨0, 0, []⟩⟩]).2 =
      [⟨9, 2, ⟨0, 0, []⟩⟩, ⟨7, 1, ⟨0, 0, []⟩⟩] ∧
    (scmi_pinctrl_gpio_disable_free 7 (.ok ()) (.error (-5))
        [⟨9, 2, ⟨0, 0, []⟩⟩, ⟨7, 1, ⟨0, 0, []⟩⟩]).1 = -5 := by
  have h := (C4_failed_restore_keeps_entry 7 (-5) (.ok ()) (.error (-5))
      [⟨9, 2, ⟨0, 0, []⟩⟩, ⟨7, 1, ⟨0, 0, []⟩⟩]).1 (Or.inr ⟨rfl, rfl⟩)
  exact ⟨h.1, h.2 ⟨⟨7, 1, ⟨0, 0, []⟩⟩, by decide, rfl⟩⟩

/-- C7: GPIO claim is all-or-nothing.  Whenever
`scmi_pinctrl_gpio_request_enable` returns an error, the registry is
unchanged (no Saved Pin Entry inserted) and — for a wire-valid pin — the
error path has released the Config Set's storage; an entry is prepended to
the registry only when all three steps (read mux, read config, set mux to
0) succeeded. -/
theorem C7_gpio_claim_all_or_nothing (pin : Nat)
    (o : scmi_pinctrl_claim_oracle) (reg : List scmi_pinctrl_saved_pin) :
    (∀ e, (scmi_pinctrl_gpio_request_enable pin o reg).1 = .error e →
      (scmi_pinctrl_gpio_request_enable pin o reg).2.1 = reg) ∧
    (pin ≤ U16_MAX → ∀ e,
      (scmi_pinctrl_gpio_request_enable pin o reg).1 = .error e →
      (scmi_pinctrl_gpio_request_enable pin o reg).2.2 = true) ∧
    ((scmi_pinctrl_gpio_request_enable pin o reg).1 = .ok () →
      ∃ function cfg, o.get_mux = .ok function ∧ o.get_config = .ok cfg ∧
        o.set_mux = .ok () ∧
        (scmi_pinctrl_gpio_request_enable pin o reg).2.1 =
          { pin := pin, func := function, cfg := cfg } :: reg) := by
  obtain ⟨gm, gc, sm⟩ := o
  by_cases hp : pin > U16_MAX
  · refine ⟨fun e _ => ?_, fun hle => absurd hp (by omega), fun h => ?_⟩
    · simp [scmi_pinctrl_gpio_request_enable, hp]
    · rw [scmi_pinctrl_gpio_request_enable] at h
      simp [hp] at h
  · cases gm with
    | error e0 =>
      refine ⟨fun e _ => ?_, fun _ e _ => ?_, fun h => ?_⟩
      · simp [scmi_pinctrl_gpio_request_enable, hp]
      · simp [scmi_pinctrl_gpio_request_enable, hp]
      · rw [scmi_pinctrl_gpio_request_enable] at h
        simp [hp] at h
    | ok fn =>
      cases gc with
      | error e0 =>
        refine ⟨fun e _ => ?_, fun _ e _ => ?_, fun h => ?_⟩
        · simp [scmi_pinctrl_gpio_request_enable, hp]
        · simp [scmi_pinctrl_gpio_request_enable, hp]
        · rw [scmi_pinctrl_gpio_request_enable] at h
          simp [hp] at h
      | ok cfgv =>
        cases sm with
        | error e0 =>
          refine ⟨fun e _ => ?_, fun _ e _ => ?_, fun h => ?_⟩
          · simp [scmi_pinctrl_gpio_request_enable, hp]
          · simp [scmi_pinctrl_gpio_request_enable, hp]
          · rw [scmi_pinctrl_gpio_request_enable] at h
            simp [hp] at h
        | ok u =>
          cases u
          refine ⟨fun e h => ?_, fun _ e h => ?_, fun _ => ?_⟩
          · rw [scmi_pinctrl_gpio_request_enable] at h
            simp [hp] at h
          · rw [scmi_pinctrl_gpio_request_enable] at h
            simp [hp] at h
          · exact ⟨fn, cfgv, rfl, rfl, rfl, by
              simp [scmi_pinctrl_gpio_request_enable, hp]⟩

/-- C7, witnessed: a failing unmux step on pin 1 leaves the registry empty
and releases the read Config Set. -/
theorem C7_gpio_claim_all_or_nothing_witness :
    (scmi_pinctrl_gpio_request_enable 1
        ⟨.ok 2, .ok ⟨0, 0, []⟩, .error (-5)⟩ []).2.1 =
      ([] : List scmi_pinctrl_saved_pin) ∧
    (scmi_pinctrl_gpio_request_enable 1
        ⟨.ok 2, .ok ⟨0, 0, []⟩, .error (-5)⟩ []).2.2 = true :=
  ⟨(C7_gpio_claim_all_or_nothing 1 ⟨.ok 2, .ok ⟨0, 0, []⟩, .error (-5)⟩ []).1
      (-5) rfl,
   (C7_gpio_claim_all_or_nothing 1 ⟨.ok 2, .ok ⟨0, 0, []⟩, .error (-5)⟩ []).2.1
      (by decide) (-5) rfl⟩

/-- C8: a Config Set with more than `max_mb_elems = (92 - 12) / 4 = 20`
multi-bit entries makes the bulk Set Config fail with `-EINVAL` (the code's
encoding of `CapacityExceeded`) before anything is sent; and whenever a
request *is* produced, it carries at most `max_mb_elems` multi-bit slots,
so the encode never writes a slot past the 92-byte transport buffer. -/
theorem C8_bulk_capacity_guard (pin : Nat) (cfg : scmi_pinctrl_pin_cfg)
    (hwf : cfg_wf cfg) :
    (count_multi_bit cfg.configs > max_mb_elems →
      (scmi_pinctrl_set_configs pin cfg).1 = .error (-EINVAL)) ∧
    (∀ req, (scmi_pinctrl_set_configs pin cfg).1 = .ok req →
      req.multi_bit_values.length ≤ max_mb_elems) := by
  have hperm : List.Perm (scmi_pinctrl_sort_cfgs cfg.configs) cfg.configs :=
    List.perm_insertionSort _ _
  have hcount : count_multi_bit (scmi_pinctrl_sort_cfgs cfg.configs) =
      count_multi_bit cfg.configs := by
    unfold count_multi_bit
    exact (hperm.filter _).length_eq
  have htake : (scmi_pinctrl_sort_cfgs cfg.configs).take cfg.num_configs =
      scmi_pinctrl_sort_cfgs cfg.configs := by
    apply List.take_of_length_le
    rw [hperm.length_eq, hwf]
  rw [scmi_pinctrl_set_configs]
  split
  · exact ⟨fun _ => rfl, fun req h => by simp at h⟩
  · simp only [htake]
    constructor
    · intro hcnt
      rcases set_configs_loop_error_shape (scmi_pinctrl_sort_cfgs cfg.configs)
          0 0 0 [] with ⟨⟨m, b, mb⟩, hok⟩ | herr
      · exfalso
        have hc := (set_configs_loop_ok_count _ 0 0 0 [] m b mb
            (Nat.zero_le _) rfl hok).2
        rw [Nat.zero_add, hcount] at hc
        omega
      · rw [herr]
    · intro req h
      cases hloop : scmi_pinctrl_set_configs_loop
          (scmi_pinctrl_sort_cfgs cfg.configs) 0 0 0 [] with
      | error e =>
        rw [hloop] at h
        simp at h
      | ok t =>
        obtain ⟨m, b, mb⟩ := t
        rw [hloop] at h
        have hc := set_configs_loop_ok_count _ 0 0 0 [] m b mb
            (Nat.zero_le _) rfl hloop
        simp only [Except.ok.injEq] at h
        rw [← h]
        simpa [Nat.zero_add] using hc.1 ▸ hc.2

/-- C8, witnessed: 21 copies of the multi-bit slew-rate parameter exceed
the 20 available slots and the encode is rejected. -/
theorem C8_bulk_capacity_guard_witness :
    (scmi_pinctrl_set_configs 0
        ⟨21, 21, List.replicate 21 (PACK_CFG CONV_PIN_CONFIG_SLEW_RATE 1)⟩).1 =
      .error (-EINVAL) :=
  (C8_bulk_capacity_guard 0
      ⟨21, 21, List.replicate 21 (PACK_CFG CONV_PIN_CONFIG_SLEW_RATE 1)⟩
      (by decide)).1 (by decide)

/-- C10: the bulk Set Config mutates its Config Set argument in place.
Once the sort has run (i.e. once the 16-bit pin check has passed), whether
or not the encode then succeeds, the caller's set holds the same multiset
of packed entries, now in descending wire-parameter order, and its entry
count and allocated capacity are unchanged. -/
theorem C10_set_configs_sorts_in_place (pin : Nat)
    (cfg : scmi_pinctrl_pin_cfg) (hpin : pin ≤ U16_MAX) :
    (scmi_pinctrl_set_configs pin cfg).2.configs.Perm cfg.configs ∧
    List.Sorted scmi_pinctrl_cfg_order
      (scmi_pinctrl_set_configs pin cfg).2.configs ∧
    (scmi_pinctrl_set_configs pin cfg).2.num_configs = cfg.num_configs ∧
    (scmi_pinctrl_set_configs pin cfg).2.allocated = cfg.allocated := by
  have h2 : (scmi_pinctrl_set_configs pin cfg).2 =
      { cfg with configs := scmi_pinctrl_sort_cfgs cfg.configs } := by
    rw [scmi_pinctrl_set_configs, if_neg (by omega)]
  rw [h2]
  exact ⟨List.perm_insertionSort _ _,
    List.sorted_insertionSort scmi_pinctrl_cfg_order cfg.configs, rfl, rfl⟩

/-- C10, witnessed at a concrete two-entry set on pin 3. -/
theorem C10_set_configs_sorts_in_place_witness :
    (scmi_pinctrl_set_configs 3
        ⟨2, 3, [PACK_CFG 1 1, PACK_CFG 3 2]⟩).2.configs.Perm
      [PACK_CFG 1 1, PACK_CFG 3 2] ∧
    List.Sorted scmi_pinctrl_cfg_order
      (scmi_pinctrl_set_configs 3 ⟨2, 3, [PACK_CFG 1 1, PACK_CFG 3 2]⟩).2.configs ∧
    (scmi_pinctrl_set_configs 3
        ⟨2, 3, [PACK_CFG 1 1, PACK_CFG 3 2]⟩).2.num_configs = 2 ∧
    (scmi_pinctrl_set_configs 3
        ⟨2, 3, [PACK_CFG 1 1, PACK_CFG 3 2]⟩).2.allocated = 3 :=
  C10_set_configs_sorts_in_place 3 ⟨2, 3, [PACK_CFG 1 1, PACK_CFG 3 2]⟩
    (by decide)
